import Mathlib

/-!
Shallow embedding of the hasura-vote repository (React web app in
src/react-web-app/src/Auth.js and src/react-web-app/src/App.js, plus the
processSignUp cloud function shipped in the tutorial document).

JavaScript truthiness matters for several claims, so a small JSValue type
models the values that flow through conditionals. Stateful React code is
modelled by explicit effect values (the setAuthState calls and listener
registrations a handler performs), and the render functions become pure
Lean functions from props to an explicit description of the rendered tree.
-/

namespace HasuraVote

/-- Model of a JavaScript runtime value, as far as truthiness and the
values appearing in this program are concerned. A method accessed as a
property (without calling it) is a function object, constructor func. -/
inductive JSValue where
  | undefined
  | null
  | bool (b : Bool)
  | num (n : Int)
  | str (s : String)
  | obj
  | func
deriving DecidableEq, Repr

/-- JavaScript truthiness of a value: undefined, null, false, 0 and the
empty string are falsy; objects and functions are always truthy. -/
def jsTruthy : JSValue → Bool
  | JSValue.undefined => false
  | JSValue.null => false
  | JSValue.bool b => b
  | JSValue.num n => n != 0
  | JSValue.str s => s != ""
  | JSValue.obj => true
  | JSValue.func => true

/-- A Firebase user as used by this app: uid and displayName. -/
structure User where
  uid : String
  displayName : String
deriving DecidableEq, Repr

/-- The authState values Auth.js ever stores with setAuthState:
status loading, status out, or status in together with the user object
and the id token. -/
inductive AuthState where
  | loading
  | signedOut
  | signedIn (user : User) (token : String)
deriving DecidableEq, Repr

/-- The status string field of an authState object. -/
def AuthState.status : AuthState → String
  | AuthState.loading => "loading"
  | AuthState.signedOut => "out"
  | AuthState.signedIn _ _ => "in"

/-- The token field of an authState object (undefined unless signed in). -/
def AuthState.tokenField : AuthState → Option String
  | AuthState.signedIn _ t => some t
  | _ => none

/-- The user field of an authState object (undefined unless signed in). -/
def AuthState.userField : AuthState → Option User
  | AuthState.signedIn u _ => some u
  | _ => none

/-- The key under which Hasura expects its custom claims in the JWT. -/
def hasuraClaimsKey : String := "https://hasura.io/jwt/claims"

/-- What the onAuthStateChanged callback in Auth.js does in one call:
either it calls setAuthState with a new state, or it registers a value
listener on a realtime-database path (the else branch that waits for the
custom claims to arrive). -/
inductive AuthEffect where
  | setState (s : AuthState)
  | listen (path : String)
deriving DecidableEq, Repr

/-- The onAuthStateChanged callback of Auth.js. Inputs: the user argument
(None for signed out), the token obtained from user.getIdToken(), and the
claims object of user.getIdTokenResult() as a property map. With a user,
it tests the hasura claim for truthiness: truthy means setAuthState to
status in with user and token; falsy means registering a value listener on
metadata/uid/refreshTime. With no user it sets status out. -/
def handleAuthStateChanged (user : Option User) (token : String)
    (claims : String → JSValue) : AuthEffect :=
  match user with
  | some u =>
    if jsTruthy (claims hasuraClaimsKey) then
      AuthEffect.setState (AuthState.signedIn u token)
    else
      AuthEffect.listen ("metadata/" ++ u.uid ++ "/refreshTime")
  | none => AuthEffect.setState AuthState.signedOut

/-- A realtime-database DataSnapshot. hasValue records whether the
snapshot contains data, i.e. what calling its exists method returns. -/
structure DataSnapshot where
  hasValue : Bool
deriving DecidableEq, Repr

/-- Calling the exists method of a DataSnapshot. -/
def DataSnapshot.existsMethod (d : DataSnapshot) : Bool := d.hasValue

/-- The JavaScript property access data.exists on a DataSnapshot: exists
is a method of DataSnapshot, so reading the property without calling it
yields the function object itself, for every snapshot. -/
def DataSnapshot.existsProp (_ : DataSnapshot) : JSValue := JSValue.func

/-- The value listener Auth.js registers on metadata/uid/refreshTime.
For each value event it receives a snapshot; the source guards with
if (not data.exists) return, reading the exists property without calling
it; past the guard it awaits user.getIdToken(true) (the forced refresh,
whose result is the refreshedToken argument here) and sets authState to
status in with the user and the refreshed token. Returns the state passed
to setAuthState, or none when the early return fires. -/
def refreshListener (user : User) (refreshedToken : String)
    (d : DataSnapshot) : Option AuthState :=
  if !(jsTruthy d.existsProp) then
    none
  else
    some (AuthState.signedIn user refreshedToken)

/-- The sequence of states Auth.js passes to setAuthState during signOut:
first status loading, then, only if firebase.auth().signOut() resolves,
status out; if it rejects, the catch block only logs and no further state
is set. -/
def signOutTrace (signOutResolves : Bool) : List AuthState :=
  if signOutResolves then
    [AuthState.loading, AuthState.signedOut]
  else
    [AuthState.loading]

/-- The header rendered by Auth.js when content is shown: either the
welcome block with the display name and a sign-out button, or the
sign-in-with-Google button. -/
inductive AuthHeader where
  | welcome (displayName : String)
  | signInButton
deriving DecidableEq, Repr

/-- What Auth.js renders apart from the header: the App component,
receiving authState as its prop. -/
structure AuthView where
  header : AuthHeader
  appAuthState : AuthState
deriving DecidableEq, Repr

/-- The render of Auth.js: content is null when status is loading,
otherwise the header (welcome plus sign-out when status is in, the
sign-in button otherwise) together with App applied to authState. -/
def authRender (s : AuthState) : Option AuthView :=
  if s.status == "loading" then
    none
  else
    some
      { header :=
          match s with
          | AuthState.signedIn u _ => AuthHeader.welcome u.displayName
          | _ => AuthHeader.signInButton
        appAuthState := s }

/-- A top-level definition node of a GraphQL document, as far as the
split-link predicate inspects it: its kind string, its operation string
(undefined on non-operation definitions such as fragments), and the
operation or fragment name. -/
structure GraphQLDefinition where
  kind : String
  operationField : Option String
  defName : String
deriving DecidableEq, Repr

/-- A parsed GraphQL document: its list of top-level definitions. -/
structure GraphQLDocument where
  definitions : List GraphQLDefinition
deriving DecidableEq, Repr

/-- The PL subscription document of App.js (name and vote_count of every
programming language, ordered by votes). -/
def PL_SUB : GraphQLDocument :=
  ⟨[⟨"OperationDefinition", some "subscription", "PL"⟩]⟩

/-- The PL_WITH_LOVE subscription document of App.js: additionally selects
the per-user loved aggregate count, filtered by the userId variable. -/
def PL_WITH_LOVE_SUB : GraphQLDocument :=
  ⟨[⟨"OperationDefinition", some "subscription", "PL_WITH_LOVE"⟩]⟩

/-- The Vote mutation document of App.js: increments vote_count of the
language whose name equals the name variable. -/
def VOTE_MUTATION : GraphQLDocument :=
  ⟨[⟨"OperationDefinition", some "mutation", "Vote"⟩]⟩

/-- The Love mutation document of App.js: inserts a loved_language row
for the name variable. -/
def LOVE_MUTATION : GraphQLDocument :=
  ⟨[⟨"OperationDefinition", some "mutation", "Love"⟩]⟩

/-- The Unlove mutation document of App.js: deletes the loved_language
rows for the name variable. -/
def UNLOVE_MUTATION : GraphQLDocument :=
  ⟨[⟨"OperationDefinition", some "mutation", "Unlove"⟩]⟩

/-- The five static GraphQL documents defined at the top of App.js. -/
def appStaticDocs : List GraphQLDocument :=
  [PL_SUB, PL_WITH_LOVE_SUB, VOTE_MUTATION, LOVE_MUTATION, UNLOVE_MUTATION]

/-- Whether a definition is an OperationDefinition whose operation is
query, mutation or subscription. -/
def isOperationDefinitionNode (d : GraphQLDefinition) : Bool :=
  d.kind == "OperationDefinition" &&
    (d.operationField == some "query" || d.operationField == some "mutation" ||
      d.operationField == some "subscription")

/-- getMainDefinition from apollo-utilities, as called by the split
predicate in App.js: the first operation definition of the document, or
failing that its first fragment definition; none models the throw on a
document with neither. -/
def getMainDefinition (doc : GraphQLDocument) : Option GraphQLDefinition :=
  match doc.definitions.find? isOperationDefinitionNode with
  | some d => some d
  | none => doc.definitions.find? (fun d => d.kind == "FragmentDefinition")

/-- The two transports the composed link can route a request to. -/
inductive TransportLink where
  | ws
  | http
deriving DecidableEq, Repr

/-- The test closure App.js passes to split: destructure kind and
operation from getMainDefinition(query) and return whether kind is
OperationDefinition and operation is subscription. none models the throw
inside getMainDefinition on a malformed document. -/
def splitTest (doc : GraphQLDocument) : Option Bool :=
  (getMainDefinition doc).map
    (fun d => d.kind == "OperationDefinition" && d.operationField == some "subscription")

/-- The routing of the composed link built by split(test, wsLink,
httpLink): requests for which the test returns true go to the WebSocket
link, all others to the HTTP link. -/
def routeRequest (doc : GraphQLDocument) : Option TransportLink :=
  (splitTest doc).map (fun b => if b then TransportLink.ws else TransportLink.http)

/-- The variables object App.js passes to the Subscription component when
signed in. -/
structure SubscriptionVariables where
  userId : String
deriving DecidableEq, Repr

/-- The authentication-dependent configuration App.js computes from its
authState prop: the subscription document and variables handed to the
Subscription component, the headers of the HttpLink, and the headers in
the connectionParams of the WebSocketLink. -/
structure AppConfig where
  subscriptionDoc : GraphQLDocument
  subVariables : Option SubscriptionVariables
  httpHeaders : List (String × String)
  wsConnectionHeaders : List (String × String)
deriving DecidableEq, Repr

/-- App.js, the configuration part: isIn is authState.status === in; the
headers object is the Authorization Bearer header under isIn and empty
otherwise, and is passed both to the HttpLink and to the WebSocketLink
connectionParams; the Subscription gets PL_WITH_LOVE_SUB with the userId
variable under isIn, and PL_SUB with null variables otherwise. The
status string is in exactly for the signedIn constructor, which carries
the user and token the isIn branch reads. -/
def appConfig (authState : AuthState) : AppConfig :=
  match authState with
  | AuthState.signedIn u t =>
    let headers := [("Authorization", "Bearer " ++ t)]
    { subscriptionDoc := PL_WITH_LOVE_SUB
      subVariables := some ⟨u.uid⟩
      httpHeaders := headers
      wsConnectionHeaders := headers }
  | _ =>
    { subscriptionDoc := PL_SUB
      subVariables := none
      httpHeaders := []
      wsConnectionHeaders := [] }

/-- The aggregate object inside a loved-languages aggregate result. -/
structure Aggregate where
  count : Int
deriving DecidableEq, Repr

/-- The lovedLanguagesByname_aggregate field of a programming language in
a PL_WITH_LOVE subscription result. -/
structure AggregateWrapper where
  aggregate : Aggregate
deriving DecidableEq, Repr

/-- One programming language row of a subscription result. The aggregate
field is selected only by PL_WITH_LOVE_SUB, so it may be absent. -/
structure ProgrammingLanguage where
  plName : String
  vote_count : Int
  lovedLanguagesByname_aggregate : Option AggregateWrapper
deriving DecidableEq, Repr

/-- A Mutation component wrapping a button in the rendered list: the
static document it is bound to and the name passed in its variables. -/
structure MutationBinding where
  mutationDoc : GraphQLDocument
  nameVariable : String
deriving DecidableEq, Repr

/-- The list item rendered for one programming language: its text label,
the Vote button binding, and the love content (null for signed-out
users, otherwise a Love or Unlove button binding). -/
structure RenderedPL where
  label : String
  voteButton : MutationBinding
  loveContent : Option MutationBinding
deriving DecidableEq, Repr

/-- The body of the map over data.programming_language in App.js. content
starts as null; under isIn the code reads
pl.lovedLanguagesByname_aggregate.aggregate.count (none models the
TypeError when the aggregate field is absent), compares it with 1, and
binds an Unlove button on equality and a Love button otherwise; every
language gets a Vote button with its name, and the label interpolates
name and vote_count. -/
def renderPL (isIn : Bool) (pl : ProgrammingLanguage) : Option RenderedPL :=
  if isIn then
    match pl.lovedLanguagesByname_aggregate with
    | none => none
    | some w =>
      let isLoved := w.aggregate.count == 1
      let content :=
        if isLoved then
          some (MutationBinding.mk UNLOVE_MUTATION pl.plName)
        else
          some (MutationBinding.mk LOVE_MUTATION pl.plName)
      some
        { label := pl.plName ++ " - " ++ toString pl.vote_count
          voteButton := MutationBinding.mk VOTE_MUTATION pl.plName
          loveContent := content }
  else
    some
      { label := pl.plName ++ " - " ++ toString pl.vote_count
        voteButton := MutationBinding.mk VOTE_MUTATION pl.plName
        loveContent := none }

/-- A GraphQL error object as delivered to the render function. -/
structure GraphQLError where
  message : String
deriving DecidableEq, Repr

/-- The data field of a subscription result. -/
structure SubscriptionData where
  programming_language : List ProgrammingLanguage
deriving DecidableEq, Repr

/-- The render-prop argument of the Subscription component: data (absent
while loading or on error), the loading flag and the optional error. -/
structure SubscriptionResult where
  data : Option SubscriptionData
  loading : Bool
  error : Option GraphQLError
deriving DecidableEq, Repr

/-- What the subscription render function returns: a text node, the list
of rendered language items, or a crash on an undefined dereference. -/
inductive RenderOut where
  | text (s : String)
  | list (items : List RenderedPL)
  | crash
deriving DecidableEq, Repr

/-- The map over the rows of data.programming_language: JavaScript map
evaluates the callback left to right and the first crashing row aborts
the whole render, so a none row makes the result none. -/
def renderAll (isIn : Bool) : List ProgrammingLanguage → Option (List RenderedPL)
  | [] => some []
  | pl :: rest =>
    match renderPL isIn pl, renderAll isIn rest with
    | some r, some rs => some (r :: rs)
    | _, _ => none

/-- The render function App.js passes to the Subscription component:
return the loading text while loading, else the error message when error
is present, and only otherwise map renderPL over
data.programming_language (crash models the undefined dereference when
data is absent in that remaining case, or when a row lacks the aggregate
field while signed in). -/
def renderSubscription (isIn : Bool) (r : SubscriptionResult) : RenderOut :=
  if r.loading then
    RenderOut.text "loading..."
  else
    match r.error with
    | some e => RenderOut.text e.message
    | none =>
      match r.data with
      | none => RenderOut.crash
      | some d =>
        match renderAll isIn d.programming_language with
        | none => RenderOut.crash
        | some items => RenderOut.list items

/-- A static mutation document is bound to a button of the rendered list
when some render of some programming language produces a button (the
Vote button or the love content) carrying it. -/
def isBoundButtonDoc (doc : GraphQLDocument) : Prop :=
  ∃ (isIn : Bool) (pl : ProgrammingLanguage) (r : RenderedPL)
    (b : MutationBinding),
    renderPL isIn pl = some r ∧
      (b = r.voteButton ∨ r.loveContent = some b) ∧ b.mutationDoc = doc

/-- The Hasura custom-claims object processSignUp builds. -/
structure HasuraClaims where
  defaultRole : String
  allowedRoles : List String
  userId : String
deriving DecidableEq, Repr

/-- The customClaims object of processSignUp: the Hasura claims stored
under the hasura claims key. -/
structure CustomClaims where
  key : String
  value : HasuraClaims
deriving DecidableEq, Repr

/-- The customClaims object processSignUp builds for a new user. -/
def signUpCustomClaims (uid : String) : CustomClaims :=
  ⟨hasuraClaimsKey, ⟨"user", ["user"], uid⟩⟩

/-- The observable effects of the processSignUp promise chain:
setCustomUserClaims on the auth admin API, a set of refreshTime at a
realtime-database path, or the console.log of the catch block. -/
inductive SignUpAction where
  | setCustomUserClaims (uid : String) (claims : CustomClaims)
  | setRefreshTime (path : String) (refreshTime : Nat)
  | logError
deriving DecidableEq, Repr

/-- The result of running processSignUp: the effects that actually
happened, in order, and whether the returned promise rejected. -/
structure SignUpOutcome where
  actions : List SignUpAction
  rejected : Bool
deriving DecidableEq, Repr

/-- The processSignUp onCreate hook from the cloud-function code in the
tutorial document: build the custom claims for the new user, call
admin.auth().setCustomUserClaims(uid, claims); only when that resolves,
set refreshTime to the current timestamp under metadata/uid; any error
in the chain is caught and logged, so the returned promise never
rejects. The two Booleans say whether each external call succeeds. -/
def processSignUp (user : User) (now : Nat)
    (setClaimsSucceeds dbSetSucceeds : Bool) : SignUpOutcome :=
  if setClaimsSucceeds then
    if dbSetSucceeds then
      ⟨[SignUpAction.setCustomUserClaims user.uid (signUpCustomClaims user.uid),
        SignUpAction.setRefreshTime ("metadata/" ++ user.uid) now], false⟩
    else
      ⟨[SignUpAction.setCustomUserClaims user.uid (signUpCustomClaims user.uid),
        SignUpAction.logError], false⟩
  else
    ⟨[SignUpAction.logError], false⟩

/-- A claims map that does contain the Hasura claims key, but bound to
the JSON value false, which is falsy. -/
def falsyHasuraClaims : String → JSValue :=
  fun k => if k == hasuraClaimsKey then JSValue.bool false else JSValue.undefined

/-- Claim C8: the early-return guard in the refresh listener never fires
for any snapshot, because the source reads the exists property without
calling the method, and a function object is always truthy; hence every
value event, a snapshot holding no data included, proceeds to the forced
token refresh and sets authState to status in with the refreshed token. -/
theorem c8_exists_guard_never_fires :
    ∀ (u : User) (rt : String) (d : DataSnapshot),
      jsTruthy d.existsProp = true ∧
      refreshListener u rt d = some (AuthState.signedIn u rt) := by
  intro u rt d
  exact ⟨rfl, rfl⟩

/-- Claim C10: signOut first stores status loading and stores status out
only after the firebase sign-out resolves; when the sign-out call
rejects, the trace of stored states ends at status loading, under which
Auth renders no content, and loading is never the previous signed-in
state. -/
theorem c10_signout_not_atomic :
    (signOutTrace true).head? = some AuthState.loading ∧
    (signOutTrace false).head? = some AuthState.loading ∧
    signOutTrace true = [AuthState.loading, AuthState.signedOut] ∧
    signOutTrace false = [AuthState.loading] ∧
    (signOutTrace false).getLast? = some AuthState.loading ∧
    authRender AuthState.loading = none ∧
    (∀ u t, AuthState.loading ≠ AuthState.signedIn u t) := by
  refine ⟨rfl, rfl, rfl, rfl, rfl, rfl, ?_⟩
  intro u t h
  exact AuthState.noConfusion h

/-- Witness for C8 at a concrete snapshot that holds no data: the guard
still does not fire and the listener still sets the signed-in state. -/
theorem c8_exists_guard_never_fires_witness :
    jsTruthy (DataSnapshot.existsProp ⟨false⟩) = true ∧
    refreshListener ⟨"u0", "Tony"⟩ "t0" ⟨false⟩ =
      some (AuthState.signedIn ⟨"u0", "Tony"⟩ "t0") :=
  c8_exists_guard_never_fires ⟨"u0", "Tony"⟩ "t0" ⟨false⟩

/-- Witness for C10 at a concrete user: the loading state left behind by
a failed sign-out differs from the previous signed-in state. -/
theorem c10_signout_not_atomic_witness :
    AuthState.loading ≠ AuthState.signedIn ⟨"u0", "Tony"⟩ "t0" :=
  c10_signout_not_atomic.2.2.2.2.2.2 ⟨"u0", "Tony"⟩ "t0"

/-- Claim C3: when the signed-in callback finds no Hasura claims entry in
the id token, it registers a value listener on metadata/uid/refreshTime,
and on a value event whose snapshot exists the listener sets authState to
status in with the user and the token from the forced refresh. -/
theorem c3_token_refresh_loop :
    (∀ (u : User) (token : String) (claims : String → JSValue),
      claims hasuraClaimsKey = JSValue.undefined →
      handleAuthStateChanged (some u) token claims =
        AuthEffect.listen ("metadata/" ++ u.uid ++ "/refreshTime")) ∧
    (∀ (u : User) (rt : String) (d : DataSnapshot),
      d.existsMethod = true →
      refreshListener u rt d = some (AuthState.signedIn u rt)) := by
  constructor
  · intro u token claims h
    simp [handleAuthStateChanged, h, jsTruthy]
  · intro u rt d _
    rfl

/-- Witness for C3 at concrete inputs: a claims map without the key and a
snapshot that exists. -/
theorem c3_token_refresh_loop_witness :
    handleAuthStateChanged (some ⟨"u1", "Ada"⟩) "tok"
        (fun _ => JSValue.undefined) =
      AuthEffect.listen ("metadata/" ++ "u1" ++ "/refreshTime") ∧
    refreshListener ⟨"u1", "Ada"⟩ "tok2" ⟨true⟩ =
      some (AuthState.signedIn ⟨"u1", "Ada"⟩ "tok2") := by
  constructor
  · exact c3_token_refresh_loop.1 ⟨"u1", "Ada"⟩ "tok" (fun _ => JSValue.undefined) rfl
  · exact c3_token_refresh_loop.2 ⟨"u1", "Ada"⟩ "tok2" ⟨true⟩ rfl

/-- Counterexample to claim C1 as stated: a claims object that does
contain the Hasura claims key (bound to the JSON value false, so the
entry is present and distinct from undefined) on which the callback does
not set the signed-in state immediately but registers the refresh
listener instead. -/
theorem c1_counterexample :
    falsyHasuraClaims hasuraClaimsKey ≠ JSValue.undefined ∧
    handleAuthStateChanged (some ⟨"u1", "Ada"⟩) "tok" falsyHasuraClaims ≠
      AuthEffect.setState (AuthState.signedIn ⟨"u1", "Ada"⟩ "tok") ∧
    handleAuthStateChanged (some ⟨"u1", "Ada"⟩) "tok" falsyHasuraClaims =
      AuthEffect.listen ("metadata/" ++ "u1" ++ "/refreshTime") := by
  refine ⟨by decide, ?_, rfl⟩
  intro h
  exact AuthEffect.noConfusion h

/-- Claim C1 as amended: the callback reaches status in only together
with the user and a token; with a signed-in user it does so immediately
exactly when the claims entry under the Hasura key is truthy, otherwise
it only registers the refresh listener, through which status in is
reached with the forcibly refreshed token; with no user it sets status
out. -/
theorem c1_status_in_transitions :
    (∀ (token : String) (claims : String → JSValue),
      handleAuthStateChanged none token claims =
        AuthEffect.setState AuthState.signedOut) ∧
    (∀ (u : User) (token : String) (claims : String → JSValue),
      jsTruthy (claims hasuraClaimsKey) = true →
      handleAuthStateChanged (some u) token claims =
        AuthEffect.setState (AuthState.signedIn u token)) ∧
    (∀ (u : User) (token : String) (claims : String → JSValue),
      jsTruthy (claims hasuraClaimsKey) = false →
      handleAuthStateChanged (some u) token claims =
        AuthEffect.listen ("metadata/" ++ u.uid ++ "/refreshTime")) ∧
    (∀ (u : User) (rt : String) (d : DataSnapshot),
      refreshListener u rt d = some (AuthState.signedIn u rt)) := by
  refine ⟨fun token claims => rfl, ?_, ?_, fun u rt d => rfl⟩
  · intro u token claims h
    simp [handleAuthStateChanged, h]
  · intro u token claims h
    simp [handleAuthStateChanged, h]

/-- Witness for the amended C1 at concrete inputs: a truthy claims entry
gives the immediate signed-in state, a falsy one gives the listener. -/
theorem c1_status_in_transitions_witness :
    handleAuthStateChanged (some ⟨"u2", "Grace"⟩) "t1" (fun _ => JSValue.obj) =
      AuthEffect.setState (AuthState.signedIn ⟨"u2", "Grace"⟩ "t1") ∧
    handleAuthStateChanged (some ⟨"u2", "Grace"⟩) "t1" (fun _ => JSValue.null) =
      AuthEffect.listen ("metadata/" ++ "u2" ++ "/refreshTime") := by
  constructor
  · exact c1_status_in_transitions.2.1 ⟨"u2", "Grace"⟩ "t1" (fun _ => JSValue.obj) rfl
  · exact c1_status_in_transitions.2.2.1 ⟨"u2", "Grace"⟩ "t1" (fun _ => JSValue.null) rfl

/-- Claim C2: a request through the composed link goes to the WebSocket
link exactly when the main definition of its query is an
OperationDefinition whose operation is subscription, and to the HTTP
link in every other case. -/
theorem c2_split_routing (doc : GraphQLDocument) (d : GraphQLDefinition)
    (h : getMainDefinition doc = some d) :
    (routeRequest doc = some TransportLink.ws ↔
      d.kind = "OperationDefinition" ∧ d.operationField = some "subscription") ∧
    (routeRequest doc = some TransportLink.ws ∨
      routeRequest doc = some TransportLink.http) := by
  have hr : routeRequest doc =
      some (if d.kind == "OperationDefinition" &&
              d.operationField == some "subscription"
            then TransportLink.ws else TransportLink.http) := by
    simp [routeRequest, splitTest, h]
  rw [hr]
  by_cases hk : d.kind = "OperationDefinition" ∧ d.operationField = some "subscription"
  · rw [if_pos (by simp only [Bool.and_eq_true, beq_iff_eq]; exact hk)]
    exact ⟨⟨fun _ => hk, fun _ => rfl⟩, Or.inl rfl⟩
  · rw [if_neg (by simp only [Bool.and_eq_true, beq_iff_eq]; exact hk)]
    refine ⟨⟨fun hws => ?_, fun hc => absurd hc hk⟩, Or.inr rfl⟩
    exact absurd (Option.some.inj hws) (fun hcc => TransportLink.noConfusion hcc)

/-- Witness for C2: the PL subscription document is routed to the
WebSocket link, the Vote mutation document to the HTTP link. -/
theorem c2_split_routing_witness :
    routeRequest PL_SUB = some TransportLink.ws ∧
    routeRequest VOTE_MUTATION = some TransportLink.http := by
  constructor
  · exact (c2_split_routing PL_SUB ⟨"OperationDefinition", some "subscription", "PL"⟩
      (by decide)).1.mpr ⟨rfl, rfl⟩
  · rcases (c2_split_routing VOTE_MUTATION
      ⟨"OperationDefinition", some "mutation", "Vote"⟩ (by decide)).2 with hws | hhttp
    · exact absurd ((c2_split_routing VOTE_MUTATION
        ⟨"OperationDefinition", some "mutation", "Vote"⟩ (by decide)).1.mp hws)
        (by decide)
    · exact hhttp

/-- Claim C4: App subscribes with PL_WITH_LOVE_SUB and the userId
variable and attaches the Bearer token to both the HttpLink headers and
the WebSocketLink connectionParams exactly when authState.status is in;
for every other authState it subscribes with PL_SUB, null variables and
empty headers on both links. -/
theorem c4_app_conditioned_on_auth (s : AuthState) :
    (∀ u t, s = AuthState.signedIn u t →
      appConfig s =
        ⟨PL_WITH_LOVE_SUB, some ⟨u.uid⟩,
          [("Authorization", "Bearer " ++ t)],
          [("Authorization", "Bearer " ++ t)]⟩) ∧
    (s.status ≠ "in" → appConfig s = ⟨PL_SUB, none, [], []⟩) ∧
    (appConfig s).httpHeaders = (appConfig s).wsConnectionHeaders ∧
    (s.status = "in" ↔ (appConfig s).httpHeaders ≠ []) := by
  cases s with
  | loading =>
    refine ⟨?_, fun _ => rfl, rfl, ?_⟩
    · intro u t h
      exact AuthState.noConfusion h
    · simp [AuthState.status, appConfig]
  | signedOut =>
    refine ⟨?_, fun _ => rfl, rfl, ?_⟩
    · intro u t h
      exact AuthState.noConfusion h
    · simp [AuthState.status, appConfig]
  | signedIn u t =>
    refine ⟨?_, ?_, rfl, ?_⟩
    · intro u2 t2 h
      injection h with h1 h2
      subst h1
      subst h2
      rfl
    · intro h
      exact absurd rfl h
    · simp [AuthState.status, appConfig]

/-- Witness for C4 at concrete states: a signed-in state and the
signed-out state. -/
theorem c4_app_conditioned_on_auth_witness :
    appConfig (AuthState.signedIn ⟨"u3", "Alan"⟩ "jwt") =
      ⟨PL_WITH_LOVE_SUB, some ⟨"u3"⟩,
        [("Authorization", "Bearer " ++ "jwt")],
        [("Authorization", "Bearer " ++ "jwt")]⟩ ∧
    appConfig AuthState.signedOut = ⟨PL_SUB, none, [], []⟩ := by
  constructor
  · exact (c4_app_conditioned_on_auth
      (AuthState.signedIn ⟨"u3", "Alan"⟩ "jwt")).1 ⟨"u3", "Alan"⟩ "jwt" rfl
  · exact (c4_app_conditioned_on_auth AuthState.signedOut).2.1 (by decide)

/-- Claim C7: for every new user, processSignUp sets custom claims under
the Hasura key with default role user, allowed roles the singleton user
and the user id equal to the uid; the refreshTime write at metadata/uid
happens only after the claims were set successfully, and the promise
chain never rejects because errors are caught and logged. -/
theorem c7_process_signup (u : User) (now : Nat) :
    (∀ b1 b2, (processSignUp u now b1 b2).rejected = false) ∧
    processSignUp u now true true =
      ⟨[SignUpAction.setCustomUserClaims u.uid
          ⟨hasuraClaimsKey, ⟨"user", ["user"], u.uid⟩⟩,
        SignUpAction.setRefreshTime ("metadata/" ++ u.uid) now], false⟩ ∧
    (∀ b1 b2 p t,
      SignUpAction.setRefreshTime p t ∈ (processSignUp u now b1 b2).actions →
      b1 = true ∧ b2 = true ∧ p = "metadata/" ++ u.uid ∧ t = now ∧
      (processSignUp u now b1 b2).actions =
        [SignUpAction.setCustomUserClaims u.uid (signUpCustomClaims u.uid),
         SignUpAction.setRefreshTime p t]) := by
  refine ⟨?_, rfl, ?_⟩
  · intro b1 b2
    cases b1 <;> cases b2 <;> rfl
  · intro b1 b2 p t h
    cases b1 <;> cases b2 <;> simp [processSignUp] at h ⊢
    obtain ⟨h1, h2⟩ := h
    subst h1
    subst h2
    simp

/-- Witness for C7 at a concrete user and time: the promise resolves and
the two effects happen in order. -/
theorem c7_process_signup_witness :
    (processSignUp ⟨"u4", "Edsger"⟩ 42 true true).rejected = false ∧
    (processSignUp ⟨"u4", "Edsger"⟩ 42 true true).actions =
      [SignUpAction.setCustomUserClaims "u4" (signUpCustomClaims "u4"),
       SignUpAction.setRefreshTime ("metadata/" ++ "u4") 42] := by
  have h := c7_process_signup ⟨"u4", "Edsger"⟩ 42
  refine ⟨h.1 true true, ?_⟩
  have h3 := h.2.2 true true ("metadata/" ++ "u4") 42 (by decide)
  exact h3.2.2.2.2

/-- Claim C5: every language item carries a Vote button bound to the Vote
mutation with the language name; with a signed-out user the love content
is null for every language; with a signed-in user the love content is an
Unlove button exactly when the per-user loved aggregate count equals 1
and a Love button in every other case, counts 0 and above 1 included. -/
theorem renderPL_signed_out (pl : ProgrammingLanguage) :
    renderPL false pl =
      some ⟨pl.plName ++ " - " ++ toString pl.vote_count,
        MutationBinding.mk VOTE_MUTATION pl.plName, none⟩ := rfl

theorem renderPL_signed_in (pl : ProgrammingLanguage) (w : AggregateWrapper)
    (h : pl.lovedLanguagesByname_aggregate = some w) :
    renderPL true pl =
      some ⟨pl.plName ++ " - " ++ toString pl.vote_count,
        MutationBinding.mk VOTE_MUTATION pl.plName,
        if w.aggregate.count == 1
          then some (MutationBinding.mk UNLOVE_MUTATION pl.plName)
          else some (MutationBinding.mk LOVE_MUTATION pl.plName)⟩ := by
  unfold renderPL
  rw [h]
  rfl

theorem renderPL_signed_in_missing_aggregate (pl : ProgrammingLanguage)
    (h : pl.lovedLanguagesByname_aggregate = none) :
    renderPL true pl = none := by
  unfold renderPL
  rw [h]
  rfl

theorem c5_button_rendering (pl : ProgrammingLanguage) :
    (∀ (isIn : Bool) (r : RenderedPL), renderPL isIn pl = some r →
      r.voteButton = MutationBinding.mk VOTE_MUTATION pl.plName) ∧
    (∀ r : RenderedPL, renderPL false pl = some r → r.loveContent = none) ∧
    (∀ w : AggregateWrapper, pl.lovedLanguagesByname_aggregate = some w →
      ∃ r : RenderedPL, renderPL true pl = some r ∧
        r.loveContent =
          some (if w.aggregate.count = 1
            then MutationBinding.mk UNLOVE_MUTATION pl.plName
            else MutationBinding.mk LOVE_MUTATION pl.plName)) := by
  refine ⟨?_, ?_, ?_⟩
  · intro isIn r h
    cases isIn with
    | false =>
      rw [renderPL_signed_out] at h
      have h2 := Option.some.inj h
      rw [← h2]
    | true =>
      cases hagg : pl.lovedLanguagesByname_aggregate with
      | none =>
        rw [renderPL_signed_in_missing_aggregate pl hagg] at h
        exact Option.noConfusion h
      | some w =>
        rw [renderPL_signed_in pl w hagg] at h
        have h2 := Option.some.inj h
        rw [← h2]
  · intro r h
    rw [renderPL_signed_out] at h
    have h2 := Option.some.inj h
    rw [← h2]
  · intro w hw
    refine ⟨_, renderPL_signed_in pl w hw, ?_⟩
    by_cases hc : w.aggregate.count = 1
    · simp [hc]
    · simp [hc]

/-- Witness for C5 at concrete rows: a signed-out render, and signed-in
renders with loved counts 1, 0 and 2. -/
theorem c5_button_rendering_witness :
    (∃ r : RenderedPL,
      renderPL false ⟨"Rust", 7, none⟩ = some r ∧
        r.voteButton = MutationBinding.mk VOTE_MUTATION "Rust" ∧
        r.loveContent = none) ∧
    (∃ r : RenderedPL, renderPL true ⟨"Go", 3, some ⟨⟨1⟩⟩⟩ = some r ∧
      r.loveContent = some (MutationBinding.mk UNLOVE_MUTATION "Go")) ∧
    (∃ r : RenderedPL, renderPL true ⟨"C", 2, some ⟨⟨0⟩⟩⟩ = some r ∧
      r.loveContent = some (MutationBinding.mk LOVE_MUTATION "C")) ∧
    (∃ r : RenderedPL, renderPL true ⟨"Zig", 1, some ⟨⟨2⟩⟩⟩ = some r ∧
      r.loveContent = some (MutationBinding.mk LOVE_MUTATION "Zig")) := by
  refine ⟨⟨_, rfl, ?_, ?_⟩, ?_, ?_, ?_⟩
  · exact (c5_button_rendering ⟨"Rust", 7, none⟩).1 false _ rfl
  · exact (c5_button_rendering ⟨"Rust", 7, none⟩).2.1 _ rfl
  · obtain ⟨r, hr, hl⟩ := (c5_button_rendering ⟨"Go", 3, some ⟨⟨1⟩⟩⟩).2.2 ⟨⟨1⟩⟩ rfl
    exact ⟨r, hr, by simpa using hl⟩
  · obtain ⟨r, hr, hl⟩ := (c5_button_rendering ⟨"C", 2, some ⟨⟨0⟩⟩⟩).2.2 ⟨⟨0⟩⟩ rfl
    exact ⟨r, hr, by simpa using hl⟩
  · obtain ⟨r, hr, hl⟩ := (c5_button_rendering ⟨"Zig", 1, some ⟨⟨2⟩⟩⟩).2.2 ⟨⟨2⟩⟩ rfl
    exact ⟨r, hr, by simpa using hl⟩

/-- Claim C9: the subscription render function returns the loading text
whenever loading is true, else the error message whenever an error is
present; in those two cases its output does not depend on the data field
at all, and only in the remaining case does it map the row renderer over
data.programming_language. -/
theorem c9_data_dereference_guarded (isIn : Bool) (r : SubscriptionResult) :
    (r.loading = true → renderSubscription isIn r = RenderOut.text "loading...") ∧
    (∀ e : GraphQLError, r.loading = false → r.error = some e →
      renderSubscription isIn r = RenderOut.text e.message) ∧
    ((r.loading = true ∨ r.error.isSome = true) →
      ∀ d : Option SubscriptionData,
        renderSubscription isIn { r with data := d } = renderSubscription isIn r) ∧
    (∀ (d : SubscriptionData) (items : List RenderedPL),
      r.loading = false → r.error = none → r.data = some d →
      renderAll isIn d.programming_language = some items →
      renderSubscription isIn r = RenderOut.list items) := by
  obtain ⟨dat, load, err⟩ := r
  refine ⟨?_, ?_, ?_, ?_⟩
  · intro h
    subst h
    rfl
  · intro e h he
    subst h
    subst he
    rfl
  · intro h d
    rcases h with h | h
    · subst h
      rfl
    · rcases herr : err with _ | e
      · rw [herr] at h
        exact Bool.noConfusion h
      · cases load <;> rfl
  · intro d items hl he hd hm
    subst hl
    subst he
    subst hd
    show (match renderAll isIn d.programming_language with
      | none => RenderOut.crash
      | some its => RenderOut.list its) = RenderOut.list items
    rw [hm]

/-- Witness for C9 at concrete results: a loading result, an error
result whose data field is irrelevant, and a delivered result. -/
theorem c9_data_dereference_guarded_witness :
    renderSubscription false ⟨none, true, none⟩ = RenderOut.text "loading..." ∧
    renderSubscription false ⟨none, false, some ⟨"boom"⟩⟩ = RenderOut.text "boom" ∧
    renderSubscription false
        ⟨some ⟨[⟨"Rust", 7, none⟩]⟩, false, some ⟨"boom"⟩⟩ =
      renderSubscription false ⟨none, false, some ⟨"boom"⟩⟩ ∧
    renderSubscription false ⟨some ⟨[⟨"Rust", 7, none⟩]⟩, false, none⟩ =
      RenderOut.list
        [⟨"Rust" ++ " - " ++ toString (7 : Int),
          MutationBinding.mk VOTE_MUTATION "Rust", none⟩] := by
  refine ⟨?_, ?_, ?_, ?_⟩
  · exact (c9_data_dereference_guarded false ⟨none, true, none⟩).1 rfl
  · exact (c9_data_dereference_guarded false ⟨none, false, some ⟨"boom"⟩⟩).2.1
      ⟨"boom"⟩ rfl rfl
  · exact (c9_data_dereference_guarded false ⟨none, false, some ⟨"boom"⟩⟩).2.2.1
      (Or.inr rfl) (some ⟨[⟨"Rust", 7, none⟩]⟩)
  · exact (c9_data_dereference_guarded false
      ⟨some ⟨[⟨"Rust", 7, none⟩]⟩, false, none⟩).2.2.2
      ⟨[⟨"Rust", 7, none⟩]⟩ _ rfl rfl rfl rfl

theorem boundButtonDoc_iff (doc : GraphQLDocument) :
    isBoundButtonDoc doc ↔
      doc = VOTE_MUTATION ∨ doc = LOVE_MUTATION ∨ doc = UNLOVE_MUTATION := by
  constructor
  · rintro ⟨isIn, pl, r, b, hr, hb, hd⟩
    subst hd
    cases isIn with
    | false =>
      rw [renderPL_signed_out] at hr
      have h2 := Option.some.inj hr
      subst h2
      rcases hb with hb | hb
      · subst hb
        exact Or.inl rfl
      · exact Option.noConfusion hb
    | true =>
      cases hagg : pl.lovedLanguagesByname_aggregate with
      | none =>
        rw [renderPL_signed_in_missing_aggregate pl hagg] at hr
        exact Option.noConfusion hr
      | some w =>
        rw [renderPL_signed_in pl w hagg] at hr
        have h2 := Option.some.inj hr
        subst h2
        rcases hb with hb | hb
        · subst hb
          exact Or.inl rfl
        · by_cases hc : (w.aggregate.count == 1) = true
          · rw [if_pos hc] at hb
            have h3 := Option.some.inj hb
            subst h3
            exact Or.inr (Or.inr rfl)
          · rw [if_neg hc] at hb
            have h3 := Option.some.inj hb
            subst h3
            exact Or.inr (Or.inl rfl)
  · intro h
    rcases h with h | h | h <;> subst h
    · exact ⟨false, ⟨"x", 0, none⟩,
        ⟨"x" ++ " - " ++ toString (0 : Int), MutationBinding.mk VOTE_MUTATION "x",
          none⟩,
        MutationBinding.mk VOTE_MUTATION "x", rfl, Or.inl rfl, rfl⟩
    · exact ⟨true, ⟨"x", 0, some ⟨⟨0⟩⟩⟩,
        ⟨"x" ++ " - " ++ toString (0 : Int), MutationBinding.mk VOTE_MUTATION "x",
          some (MutationBinding.mk LOVE_MUTATION "x")⟩,
        MutationBinding.mk LOVE_MUTATION "x", rfl, Or.inr rfl, rfl⟩
    · exact ⟨true, ⟨"x", 0, some ⟨⟨1⟩⟩⟩,
        ⟨"x" ++ " - " ++ toString (0 : Int), MutationBinding.mk VOTE_MUTATION "x",
          some (MutationBinding.mk UNLOVE_MUTATION "x")⟩,
        MutationBinding.mk UNLOVE_MUTATION "x", rfl, Or.inr rfl, rfl⟩

/-- Counterexample to claim C6 as stated: the set of static documents
bound to buttons of the conditionally rendered list has no description
as a four-element set, because that set is exactly the three mutation
documents Vote, Love and Unlove. -/
theorem c6_counterexample :
    ¬ ∃ S : Finset GraphQLDocument,
        (∀ d, isBoundButtonDoc d ↔ d ∈ S) ∧ S.card = 4 := by
  rintro ⟨S, hmem, hcard⟩
  have hS : S = ({VOTE_MUTATION, LOVE_MUTATION, UNLOVE_MUTATION} :
      Finset GraphQLDocument) := by
    apply Finset.ext
    intro d
    rw [← hmem d, boundButtonDoc_iff]
    simp [Finset.mem_insert, Finset.mem_singleton]
  rw [hS] at hcard
  have h3 : ({VOTE_MUTATION, LOVE_MUTATION, UNLOVE_MUTATION} :
      Finset GraphQLDocument).card = 3 := by decide
  rw [h3] at hcard
  exact absurd hcard (by decide)

/-- Claim C6 as amended: the vote, love and unlove buttons of the
conditionally rendered list are bound to exactly three static GraphQL
documents, the Vote, Love and Unlove mutations, which are pairwise
distinct and are among the five static documents the data component
defines. -/
theorem c6_three_button_docs :
    (∀ d, isBoundButtonDoc d ↔
      d ∈ [VOTE_MUTATION, LOVE_MUTATION, UNLOVE_MUTATION]) ∧
    ([VOTE_MUTATION, LOVE_MUTATION, UNLOVE_MUTATION] :
      List GraphQLDocument).Nodup ∧
    (∀ d, d ∈ [VOTE_MUTATION, LOVE_MUTATION, UNLOVE_MUTATION] →
      d ∈ appStaticDocs) ∧
    appStaticDocs.length = 5 := by
  refine ⟨?_, by decide, ?_, rfl⟩
  · intro d
    rw [boundButtonDoc_iff]
    simp [List.mem_cons]
  · intro d hd
    simp only [List.mem_cons, List.not_mem_nil, or_false] at hd
    rcases hd with rfl | rfl | rfl <;> simp [appStaticDocs]

/-- Witness for the amended C6: the Vote mutation document is indeed
bound to a rendered button. -/
theorem c6_three_button_docs_witness : isBoundButtonDoc VOTE_MUTATION :=
  (c6_three_button_docs.1 VOTE_MUTATION).mpr (by simp)

end HasuraVote
